import Mathlib

/-!
Verification of the scan2pdf document digestion pipeline (src/scan2pdf.cpp).

The pixel kernels (threshold, solarize, colorspace conversion, channel
statistics, trim, crop) are external collaborators of the core (ImageMagick,
leptonica, tesseract); they are modelled as abstract operation records, while
every decision the core itself makes (classification thresholds, the blank-page
gate, the consumer loop, the shadow-trim retry loop, the assembly fallbacks) is
embedded directly from the source.
-/

namespace Scan2pdf

/-! ## Quantum scale helpers (src/scan2pdf.cpp lines 119-129)

`MaxMap` is ImageMagick's maximum quantum map value (65535 on the Q16 build the
code targets; see the FIXME at line 56 choosing MaxMap over QuantumRange).
-/

/-- ImageMagick MaxMap quantum scale constant (Q16 build). -/
def maxMap : ℚ := 65535

/-- From lines 119-123: rescale a quantum value to the 0-255 RGB range. -/
def quantum_as_rgb (quantum_val : ℚ) : ℚ :=
  (quantum_val / maxMap) * 255

/-- From lines 125-129: convert a percentage to a quantum value. -/
def to_quantum_percent (percent : ℚ) : ℚ :=
  (percent / 100) * maxMap

/-! ## External pixel kernels

The classification predicates copy the page, run external ImageMagick kernels
on the copy, and read channel statistics from the copy.  The kernels themselves
are out of scope (spec section 1), so they are a record of abstract operations
over an abstract image type. -/

/-- Abstract record of the ImageMagick pixel kernels and statistics used by the
classification predicates.  `fx_mean` is `%[fx:mean]`, `fx_mean_g` and
`fx_maxima_g` are `%[fx:mean.g]` and `%[fx:maxima.g]`, `gray_mean` and
`gray_stddev` are `statistics().channel(GrayPixelChannel)` values in quantum
units. -/
structure ImageOps (Img : Type) where
  whiteThreshold : ℚ → Img → Img
  solarize : ℚ → Img → Img
  colorSpaceGray : Img → Img
  colorSpaceHSL : Img → Img
  fx_mean : Img → ℚ
  fx_mean_g : Img → ℚ
  fx_maxima_g : Img → ℚ
  gray_mean : Img → ℚ
  gray_stddev : Img → ℚ

/-! ## Classification predicates (src/scan2pdf.cpp lines 406-492)

Each C++ predicate takes the page by mutable reference, constructs a local
copy, mutates only the copy, and returns a Bool.  They are embedded in
state-passing form `Img → Bool × Img`, the second component being the page as
the predicate leaves it (the C++ reference after the call returns). -/

/-- From `is_white`, lines 476-492: threshold the copy 75% toward white, read
`%[fx:mean]`, blank when the mean exceeds 0.99. -/
def is_white {Img : Type} (ops : ImageOps Img) (image : Img) : Bool × Img :=
  let percent_white_image := ops.whiteThreshold (75 / 100) image
  let percent_white := ops.fx_mean percent_white_image
  (decide (percent_white > 99 / 100), image)

/-- From lines 444-446: `rgb_max` is declared as the C++ `int` 255. -/
def rgb_max : ℤ := 255

/-- From line 445: `constexpr auto mean_gray_rgb_threshold{rgb_max / 6}` —
integer division of C++ `int`s, so the threshold is 42, not 42.5. -/
def mean_gray_rgb_threshold : ℤ := rgb_max / 6

/-- From line 446: the stddev-mean gap threshold 15.5. -/
def std_diff_mean_gray_threshold : ℚ := 15.5

/-- The decision `is_bw` makes once the gray-channel statistics (in quantum
units) are in hand, from lines 438-451. -/
def is_bw_decision (mean stddev : ℚ) : Bool :=
  let mean_gray := quantum_as_rgb mean
  let std_diff_mean_gray := |quantum_as_rgb (stddev - mean)|
  decide (mean_gray < (mean_gray_rgb_threshold : ℚ)) &&
    decide (std_diff_mean_gray < std_diff_mean_gray_threshold)

/-- From `is_bw`, lines 427-452: solarize the copy at 50%, convert it to the
gray colorspace, and decide on its gray-channel mean and standard deviation. -/
def is_bw {Img : Type} (ops : ImageOps Img) (image : Img) : Bool × Img :=
  let bw_image_test := ops.solarize (to_quantum_percent 50) image
  let bw_image_test := ops.colorSpaceGray bw_image_test
  (is_bw_decision (ops.gray_mean bw_image_test) (ops.gray_stddev bw_image_test),
    image)

/-- From `is_grayscale`, lines 406-425: convert the copy to HSL and compare the
saturation mean and peak against 0.05 and 0.1. -/
def is_grayscale {Img : Type} (ops : ImageOps Img) (image : Img) : Bool × Img :=
  let gray_image_test := ops.colorSpaceHSL image
  let gray_factor := ops.fx_mean_g gray_image_test
  let gray_peak := ops.fx_maxima_g gray_image_test
  (decide (gray_factor < 5 / 100) && decide (gray_peak < 1 / 10), image)

/-! ## The blank-page gate (src/scan2pdf.cpp lines 684-703)

The lambda `ask_user_should_keep_image` asks the operator only when `is_white`
reported blank; it discards the page exactly when the operator's answer is
nonempty and starts with N or n, and keeps it in every other case. -/

/-- The keep/discard decision of the gate, given the `is_white` verdict and the
operator's typed answer. -/
def ask_user_should_keep_image (is_white_result : Bool) (user_answer : String) : Bool :=
  if is_white_result then
    if !user_answer.isEmpty && (user_answer.front == 'N' || user_answer.front == 'n') then
      false
    else
      true
  else
    true

/-! ## The acquisition/consumer loop (src/scan2pdf.cpp lines 641-734)

Pages are abstracted by identifiers.  The shared state is exactly the page
queue (`images_buffer`, a FIFO per spec section 4.1 — `hyx::circular_buffer`
is an external collaborator) and the set-once completion flag `done_scanning`;
`images` is the kept-pages list (DocumentAccumulator) and `dequeued` records
the order pages were taken from the queue.  `pending` is the list of pages the
scanner will still produce, in acquisition order. -/

/-- A page identifier. -/
abbrev Page := ℕ

/-- The state shared between the acquisition thread and the consumer loop,
plus the ghost field `dequeued`. -/
structure LoopState where
  pending : List Page
  queue : List Page
  done_scanning : Bool
  dequeued : List Page
  images : List Page
deriving DecidableEq, Repr

/-- One step of the concurrent acquisition/consumer system, parametrized by
the per-page keep decision of the gate.
* `produce`: the jthread (lines 648-657) pushes the next acquired page while
  the completion flag is still unset;
* `signal`: the jthread sets `done_scanning` once, after its last push;
* `consume`: the consumer (lines 659-733) takes the queue front and appends it
  to `images` exactly when the gate keeps it. -/
inductive Step (keep : Page → Bool) : LoopState → LoopState → Prop
  | produce (p : Page) (rest queue deq imgs : List Page) :
      Step keep ⟨p :: rest, queue, false, deq, imgs⟩
        ⟨rest, queue ++ [p], false, deq, imgs⟩
  | signal (queue deq imgs : List Page) :
      Step keep ⟨[], queue, false, deq, imgs⟩ ⟨[], queue, true, deq, imgs⟩
  | consume (pending : List Page) (p : Page) (rest : List Page) (done : Bool)
      (deq imgs : List Page) :
      Step keep ⟨pending, p :: rest, done, deq, imgs⟩
        ⟨pending, rest, done, deq ++ [p], imgs ++ if keep p then [p] else []⟩

/-- The state before the jthread starts, with acquisition list `acq`. -/
def initState (acq : List Page) : LoopState :=
  ⟨acq, [], false, [], []⟩

/-- States the run can reach from the initial state. -/
def Reachable (keep : Page → Bool) (acq : List Page) (s : LoopState) : Prop :=
  Relation.ReflTransGen (Step keep) (initState acq) s

/-- The consumer loop guard from line 659:
`!done_scanning || !images_buffer.empty()`. -/
def loop_guard (s : LoopState) : Bool :=
  !s.done_scanning || !s.queue.isEmpty

/-- The core invariant of the loop: the FIFO never reorders (dequeued, queued
and still-pending pages concatenate to the acquisition order), the kept list is
exactly the gate-filtered dequeue order, and the completion flag implies the
scanner produced everything. -/
theorem reachable_invariant {keep : Page → Bool} {acq : List Page} {s : LoopState}
    (h : Reachable keep acq s) :
    s.dequeued ++ s.queue ++ s.pending = acq ∧
      s.images = s.dequeued.filter keep ∧
      (s.done_scanning = true → s.pending = []) := by
  induction h with
  | refl => simp [initState]
  | tail hsteps hstep ih =>
    obtain ⟨ih1, ih2, ih3⟩ := ih
    cases hstep with
    | produce p rest queue deq imgs =>
      dsimp only at ih1 ih2 ih3 ⊢
      refine ⟨?_, ih2, fun h => by simp at h⟩
      simpa [List.append_assoc] using ih1
    | signal queue deq imgs =>
      dsimp only at ih1 ih2 ih3 ⊢
      exact ⟨ih1, ih2, fun _ => rfl⟩
    | consume pending p rest done deq imgs =>
      dsimp only at ih1 ih2 ih3 ⊢
      refine ⟨?_, ?_, ih3⟩
      · simpa [List.append_assoc] using ih1
      · rw [ih2, List.filter_append]
        cases hkp : keep p <;> simp [hkp]

/-! ## Assembly stage (src/scan2pdf.cpp lines 736-770)

After the consumer loop the code throws when no page was kept, writes the kept
pages, attempts the OCR text-layer render (falling back to an image-only
render), and delivers the file with a single `std::filesystem::copy_file` call
whose failure throws.  Whether the external render and copy succeed is
environment input; `move_ok` records whether a rename at the destination would
have succeeded — the source never consults it, having no rename call. -/

/-- Outcomes of the external filesystem and OCR collaborators during
assembly. -/
structure AssemblyEnv where
  render_ok : Bool
  move_ok : Bool
  copy_ok : Bool
deriving DecidableEq, Repr

/-- Observable outcome of one run past the consumer loop: the process exit
code, the pages inside the delivered output file (`none` when no file reaches
the destination), and whether the delivered file carries an OCR text layer. -/
structure RunOutcome where
  exitCode : ℕ
  outputFile : Option (List Page)
  textLayer : Bool
deriving DecidableEq, Repr

/-- The assembly tail of `main`, lines 736-770: throw (exit 1) when `images`
is empty; otherwise the text layer survives exactly when `ProcessPages`
succeeded, and the single `copy_file` call decides delivery — its failure
throws (exit 1, nothing delivered). -/
def assemble (images : List Page) (env : AssemblyEnv) : RunOutcome :=
  if images.length = 0 then
    ⟨1, none, false⟩
  else if env.copy_ok then
    ⟨0, some images, env.render_ok⟩
  else
    ⟨1, none, env.render_ok⟩

/-- Whatever pages an assembled run delivers are exactly the kept pages. -/
theorem assemble_outputFile_eq {images : List Page} {env : AssemblyEnv}
    {pages : List Page} (h : (assemble images env).outputFile = some pages) :
    pages = images := by
  unfold assemble at h
  split_ifs at h
  simp_all

/-- The OCR time budget passed to `ProcessPages` at line 753:
`static_cast<int>(10'000 * images_buffer.size())`, a function of the size of
the acquisition buffer at assembly time. -/
def ocr_time_budget (images_buffer_size : ℕ) : ℤ :=
  10000 * images_buffer_size

/-! ## Claim theorems for the consumer loop -/

/-- C2. For every run, the pages appended to the output document appear in
exactly the order they were dequeued from the page queue (strict FIFO
scan-acquisition order), regardless of how each page is classified, and the
consumer loop terminates only when the completion flag is set and the queue is
empty. -/
theorem fifo_output_order {keep : Page → Bool} {acq : List Page} {s : LoopState}
    (h : Reachable keep acq s) (hexit : loop_guard s = false) :
    s.images = acq.filter keep ∧ s.done_scanning = true ∧ s.queue = [] := by
  have hdone : s.done_scanning = true := by
    by_contra hdn
    simp [loop_guard, Bool.not_eq_true] at hexit
    exact hdn hexit.1
  have hq : s.queue = [] := by
    have := hexit
    simp [loop_guard, hdone] at this
    simpa [List.isEmpty_iff] using this
  obtain ⟨h1, h2, h3⟩ := reachable_invariant h
  refine ⟨?_, hdone, hq⟩
  rw [h2]
  have hpend := h3 hdone
  rw [hq, hpend] at h1
  simpa using congrArg (List.filter keep) h1

/-- C1. For every page for which the blank classifier returns true (mean after
the 75% white-threshold clip exceeds 0.99) and that the operator does not
interactively override at the blank-page gate (the operator's answer is an
explicit N/n, declining to force-keep), the page is never appended to the
kept-pages list and never appears in the output file. -/
theorem blank_discard_never_in_output {Img : Type} (ops : ImageOps Img)
    (pageImg : Page → Img) (answer : Page → String) {acq : List Page}
    {s : LoopState} (p : Page) (env : AssemblyEnv) (pages : List Page)
    (h : Reachable
      (fun q => ask_user_should_keep_image (is_white ops (pageImg q)).1 (answer q)) acq s)
    (hwhite : (is_white ops (pageImg p)).1 = true)
    (hno : (!(answer p).isEmpty &&
      ((answer p).front == 'N' || (answer p).front == 'n')) = true) :
    p ∉ s.images ∧ ((assemble s.images env).outputFile = some pages → p ∉ pages) := by
  have hkeep : ask_user_should_keep_image (is_white ops (pageImg p)).1 (answer p) = false := by
    rw [hwhite]
    unfold ask_user_should_keep_image
    simp [hno]
  have hmem : p ∉ s.images := by
    intro hp
    have h2 := (reachable_invariant h).2.1
    rw [h2] at hp
    have := List.of_mem_filter hp
    rw [hkeep] at this
    exact Bool.false_ne_true this
  exact ⟨hmem, fun hout => by rw [assemble_outputFile_eq hout]; exact hmem⟩

/-- C5 (code bug). The OCR time budget at assembly time is
`10'000 * images_buffer.size()`, but the consumer loop exits only once the
acquisition buffer is empty, so the budget is always 0 and in particular never
`10'000 * (number of kept pages)` on any run that kept a page. -/
theorem ocr_budget_always_zero {keep : Page → Bool} {acq : List Page}
    {s : LoopState} (h : Reachable keep acq s) (hexit : loop_guard s = false) :
    ocr_time_budget s.queue.length = 0 ∧
      (s.images ≠ [] → ocr_time_budget s.queue.length ≠ 10000 * s.images.length) := by
  obtain ⟨-, -, hq⟩ := fifo_output_order h hexit
  constructor
  · simp [ocr_time_budget, hq]
  · intro hne
    have hlen : 0 < s.images.length := List.length_pos.mpr hne
    rw [hq]
    simp only [ocr_time_budget, List.length_nil, Nat.cast_zero, mul_zero]
    have hpos : (0 : ℤ) < 10000 * (s.images.length : ℤ) := by
      have hcast : (0 : ℤ) < (s.images.length : ℤ) := by exact_mod_cast hlen
      linarith
    exact ne_of_lt hpos

/-- C10. If, after all pages are dequeued and processed, the kept-pages list is
empty, the run raises an error ("Too few images to output a pdf."), exits with
non-zero status, and produces no output file. -/
theorem empty_kept_list_fatal {keep : Page → Bool} {acq : List Page}
    {s : LoopState} (env : AssemblyEnv) (_h : Reachable keep acq s)
    (_hexit : loop_guard s = false) (hempty : s.images = []) :
    (assemble s.images env).exitCode ≠ 0 ∧ (assemble s.images env).outputFile = none := by
  rw [hempty]
  exact ⟨by simp [assemble], by simp [assemble]⟩

/-! ## Concrete runs (witness material)

`runA`: three pages are acquired, page 1 is discarded by the gate.
`runB`: a single all-white page answered "n" at the gate, so nothing is kept.
`runC`: a single page with a keep function that discards everything. -/

/-- Keep function for run A: keep everything except page 1. -/
def keepA : Page → Bool := fun p => p != 1

/-- Final state of run A. -/
def sA : LoopState := ⟨[], [], true, [0, 1, 2], [0, 2]⟩

/-- Run A is a genuine interleaved execution of the loop. -/
theorem reachA : Reachable keepA [0, 1, 2] sA := by
  refine Relation.ReflTransGen.tail (Relation.ReflTransGen.tail
    (Relation.ReflTransGen.tail (Relation.ReflTransGen.tail
      (Relation.ReflTransGen.tail (Relation.ReflTransGen.tail
        (Relation.ReflTransGen.tail (Relation.ReflTransGen.refl)
          (Step.produce 0 [1, 2] [] [] []))
        (Step.consume [1, 2] 0 [] false [] []))
      (Step.produce 1 [2] [] [0] [0]))
    (Step.produce 2 [] [1] [0] [0]))
    (Step.signal [1, 2] [0] [0]))
    (Step.consume [] 1 [2] true [0] [0]))
    (Step.consume [] 2 [] true [0, 1] [0])

/-- Concrete kernel record over rational test images: every kernel is the
identity and an image doubles as its own statistic, which is all the witness
runs need. -/
def opsQ : ImageOps ℚ where
  whiteThreshold := fun _ i => i
  solarize := fun _ i => i
  colorSpaceGray := id
  colorSpaceHSL := id
  fx_mean := id
  fx_mean_g := id
  fx_maxima_g := id
  gray_mean := id
  gray_stddev := id

/-- Run B pages: every page reads as fully white (mean 1). -/
def imgB : Page → ℚ := fun _ => 1

/-- Run B operator: every gate prompt is answered "n". -/
def answerB : Page → String := fun _ => "n"

/-- Run B keep decision: the gate applied to the real `is_white` verdict. -/
def keepB : Page → Bool :=
  fun q => ask_user_should_keep_image (is_white opsQ (imgB q)).1 (answerB q)

/-- Every run B page classifies as blank. -/
theorem is_white_imgB (p : Page) : (is_white opsQ (imgB p)).1 = true := by
  norm_num [is_white, opsQ, imgB]

/-- The gate discards every run B page. -/
theorem keepB_false (p : Page) : keepB p = false := by
  simp only [keepB, answerB, is_white_imgB]
  decide

/-- Final state of run B: the one white page was dequeued and discarded. -/
def sB : LoopState := ⟨[], [], true, [0], []⟩

/-- Run B is a genuine execution of the loop. -/
theorem reachB : Reachable keepB [0] sB := by
  have hstep : Step keepB ⟨[], [0], true, [], []⟩ sB := by
    simpa [sB, keepB_false 0] using @Step.consume keepB [] 0 [] true [] []
  exact Relation.ReflTransGen.tail (Relation.ReflTransGen.tail
    (Relation.ReflTransGen.tail Relation.ReflTransGen.refl
      (Step.produce 0 [] [] [] [])) (Step.signal [0] [] [])) hstep

/-- Final state of run C: one page acquired, nothing kept. -/
def sC : LoopState := ⟨[], [], true, [0], []⟩

/-- Run C is a genuine execution of the loop with an all-discarding gate. -/
theorem reachC : Reachable (fun _ => false) [0] sC := by
  have hstep : Step (fun _ => false) ⟨[], [0], true, [], []⟩ sC := by
    simpa [sC] using @Step.consume (fun _ => false) [] 0 [] true [] []
  exact Relation.ReflTransGen.tail (Relation.ReflTransGen.tail
    (Relation.ReflTransGen.tail Relation.ReflTransGen.refl
      (Step.produce 0 [] [] [] [])) (Step.signal [0] [] [])) hstep

/-- Witness for C2 at run A. -/
theorem fifo_output_order_witness :
    sA.images = List.filter keepA [0, 1, 2] ∧ sA.done_scanning = true ∧ sA.queue = [] :=
  fifo_output_order reachA (by decide)

/-- Witness for C1 at run B: the white page answered "n" is in neither the
kept list nor any delivered output. -/
theorem blank_discard_never_in_output_witness :
    (0 : Page) ∉ sB.images ∧
      ((assemble sB.images ⟨true, true, true⟩).outputFile = some [] →
        (0 : Page) ∉ ([] : List Page)) :=
  blank_discard_never_in_output opsQ imgB answerB 0 ⟨true, true, true⟩ []
    reachB (is_white_imgB 0) (by decide)

/-- Witness for C5 at run A: two pages were kept, yet the budget the code
computes is 0. -/
theorem ocr_budget_always_zero_witness :
    ocr_time_budget sA.queue.length = 0 ∧
      (sA.images ≠ [] → ocr_time_budget sA.queue.length ≠ 10000 * sA.images.length) :=
  ocr_budget_always_zero reachA (by decide)

/-- Witness for C10 at run C. -/
theorem empty_kept_list_fatal_witness :
    (assemble sC.images ⟨true, true, true⟩).exitCode ≠ 0 ∧
      (assemble sC.images ⟨true, true, true⟩).outputFile = none :=
  empty_kept_list_fatal ⟨true, true, true⟩ reachC (by decide) (by decide)

/-! Claim C4: destination delivery.  The code at lines 758-761 issues exactly
one `std::filesystem::copy_file` call and throws when it reports failure; no
`std::filesystem::rename` exists in the translation unit, so there is no move
step and no fallback. -/

/-- C4 counterexample: one kept page, a destination where a rename would have
succeeded but the copy fails — the run is fatal and delivers nothing, although
the claim says a failing "move" is recovered by copy and only a failure of
both is fatal. -/
theorem move_fallback_counterexample :
    (AssemblyEnv.mk true true false).move_ok = true ∧
      (assemble [0] (AssemblyEnv.mk true true false)).exitCode = 1 ∧
      (assemble [0] (AssemblyEnv.mk true true false)).outputFile = none := by
  decide

/-- C4 amended: delivery is a single copy; with at least one kept page the run
exits 0 exactly when that copy succeeds, and the outcome never depends on
whether a move would have succeeded. -/
theorem assemble_copy_only (images : List Page) (env : AssemblyEnv)
    (h : images ≠ []) :
    ((assemble images env).exitCode = 0 ↔ env.copy_ok = true) ∧
      (∀ b, assemble images ⟨env.render_ok, b, env.copy_ok⟩ = assemble images env) := by
  have hlen : images.length ≠ 0 := by simpa using h
  refine ⟨?_, fun b => rfl⟩
  cases hc : env.copy_ok <;> simp [assemble, hlen, hc]

/-- Witness for the amended C4 at one kept page. -/
theorem assemble_copy_only_witness :
    ((assemble [0] (AssemblyEnv.mk true false true)).exitCode = 0 ↔
      (AssemblyEnv.mk true false true).copy_ok = true) ∧
      (∀ b, assemble [0] ⟨(AssemblyEnv.mk true false true).render_ok, b,
        (AssemblyEnv.mk true false true).copy_ok⟩ =
          assemble [0] (AssemblyEnv.mk true false true)) :=
  assemble_copy_only [0] (AssemblyEnv.mk true false true) (by decide)

/-! Claim C6: filename resolution (src/scan2pdf.cpp lines 136-144 and
745-750). -/

/-- From `parse_organization`, lines 136-144: the Python organization guess
when it is non-empty, otherwise the caller's default. -/
def parse_organization (org : String) (default_return : String) : String :=
  if !org.isEmpty then org else default_return

/-- From `main` lines 745-750: token substitution runs only under
`auto_mode && !document_text.empty()`; `std::regex_replace` with a literal
pattern replaces every occurrence.  The external extractors are inputs: the
Python organization guesser returns a string (empty meaning nothing), the
`hyx::parser` extractors are optional-token extractors always paired with the
caller's default (`none` meaning the extractor yielded nothing), and
`current_date` stands for `get_current_date()`. -/
def resolve_filename (auto_mode : Bool) (document_text : String)
    (org_extract : String → String)
    (date_extract store_extract trans_extract : String → Option String)
    (current_date : String) (filename : String) : String :=
  if auto_mode && !document_text.isEmpty then
    let f1 := filename.replace ("%o") (parse_organization (org_extract document_text) ("<org>"))
    let f2 := f1.replace ("%d") ((date_extract document_text).getD current_date)
    let f3 := f2.replace ("%s") ((store_extract document_text).getD ("<store>"))
    f3.replace ("%t") ((trans_extract document_text).getD ("<transaction>"))
  else
    filename

/-- C6 counterexample: auto-naming enabled but text extraction produced no
text at all — no default is substituted, every pattern token survives
verbatim, contradicting "the defaults are applied even when text extraction
produced no text at all". -/
theorem filename_empty_text_counterexample :
    resolve_filename true ("") (fun _ => ("")) (fun _ => none) (fun _ => none)
        (fun _ => none) ("2024-01-01") ("%o_%d_%s_%t") = ("%o_%d_%s_%t") ∧
      ("%o_%d_%s_%t") ≠
        ("<org>_2024-01-01_<store>_<transaction>") := by
  exact ⟨rfl, by decide⟩

/-- C6 amended: when auto-naming is enabled and the accumulated text is
non-empty, each of the four tokens is substituted and falls back to its
explicit default when its extractor yields nothing; when the accumulated text
is empty the filename is left untouched, tokens and all. -/
theorem filename_defaults (org_extract : String → String)
    (date_extract store_extract trans_extract : String → Option String)
    (document_text current_date filename : String)
    (h : document_text.isEmpty = false) :
    resolve_filename true document_text (fun _ => ("")) (fun _ => none)
        (fun _ => none) (fun _ => none) current_date filename =
      (((filename.replace ("%o") ("<org>")).replace ("%d") current_date).replace
        ("%s") ("<store>")).replace ("%t") ("<transaction>") ∧
    resolve_filename true ("") org_extract date_extract store_extract
      trans_extract current_date filename = filename := by
  constructor
  · have hemp : ("").isEmpty = true := rfl
    simp [resolve_filename, parse_organization, h, hemp]
  · rfl

/-- Witness for the amended C6 with concrete text and pattern. -/
theorem filename_defaults_witness :
    resolve_filename true ("receipt text") (fun _ => ("")) (fun _ => none)
        (fun _ => none) (fun _ => none) ("2024-01-01") ("%o_%d_%s_%t") =
      ((((("%o_%d_%s_%t").replace ("%o") ("<org>")).replace ("%d")
        ("2024-01-01")).replace ("%s") ("<store>")).replace ("%t")
          ("<transaction>")) ∧
    resolve_filename true ("") (fun _ => ("x")) (fun _ => some ("d"))
      (fun _ => some ("s")) (fun _ => some ("t")) ("2024-01-01")
        ("%o_%d_%s_%t") = ("%o_%d_%s_%t") :=
  filename_defaults (fun _ => ("x")) (fun _ => some ("d")) (fun _ => some ("s"))
    (fun _ => some ("t")) ("receipt text") ("2024-01-01") ("%o_%d_%s_%t") rfl

/-! Claim C7: the black-and-white thresholds.  The code declares
`constexpr auto rgb_max{255}` (an `int`) and
`constexpr auto mean_gray_rgb_threshold{rgb_max / 6}` — C++ integer division,
so the threshold the comparison uses is 42, not the rational 255/6 = 42.5 the
spec describes. -/

/-- The black-and-white decision as the SPEC words it: mean (0-255 rescale)
strictly below the rational 255/6 (= 42.5) and |stddev − mean| strictly below
15.5. -/
def is_bw_spec_decision (mean stddev : ℚ) : Bool :=
  decide (quantum_as_rgb mean < 255 / 6) &&
    decide (|quantum_as_rgb (stddev - mean)| < 15.5)

/-- C7 counterexample: a page whose solarized gray mean rescales to 42.25
(quantum 43433/4 at MaxMap 65535) with stddev equal to the mean.  The spec
predicate (42.25 < 42.5) accepts it; the code (42.25 < 42) rejects it. -/
theorem is_bw_threshold_counterexample :
    is_bw_decision (43433 / 4) (43433 / 4) = false ∧
      is_bw_spec_decision (43433 / 4) (43433 / 4) = true := by
  constructor
  · norm_num [is_bw_decision, quantum_as_rgb, maxMap, mean_gray_rgb_threshold,
      rgb_max, std_diff_mean_gray_threshold]
  · norm_num [is_bw_spec_decision, quantum_as_rgb, maxMap]

/-- C7 amended: the classifier returns true exactly when, on the solarized
single-gray-channel copy, the 0-255-rescaled mean is strictly below 42 (the
integer quotient 255/6) and the rescaled |stddev − mean| is strictly below
15.5. -/
theorem is_bw_iff {Img : Type} (ops : ImageOps Img) (image : Img) :
    (is_bw ops image).1 = true ↔
      (quantum_as_rgb (ops.gray_mean (ops.colorSpaceGray
          (ops.solarize (to_quantum_percent 50) image))) < 42 ∧
        |quantum_as_rgb (ops.gray_stddev (ops.colorSpaceGray
          (ops.solarize (to_quantum_percent 50) image)) -
            ops.gray_mean (ops.colorSpaceGray
              (ops.solarize (to_quantum_percent 50) image)))| < 15.5) := by
  have h42 : ((mean_gray_rgb_threshold : ℤ) : ℚ) = 42 := by
    norm_num [mean_gray_rgb_threshold, rgb_max]
  simp [is_bw, is_bw_decision, std_diff_mean_gray_threshold, h42]

/-! Claim C8: orientation detection and correction (src/scan2pdf.cpp lines
389-404 and 715-725). -/

/-- From `get_orientation`, lines 389-404: `ori_deg` is initialized to 0 ("
default to not changing the orientation") and `DetectOrientationScript` writes
the detected rotation into it on success; `none` models a detection failure
that leaves the default in place. -/
def get_orientation (detect_result : Option ℤ) : ℤ :=
  match detect_result with
  | some ori_deg => ori_deg
  | none => 0

/-- The two rotations `main` applies at lines 715-725: `image.rotate(360 -
ori_deg)` on the page image and `pixRotateOrth(pimage, ori_deg / 90)` on the
OCR bitmap, before text extraction. -/
structure OrientationApplied where
  image_rotation_degrees : ℤ
  pix_quarter_turns : ℤ
deriving DecidableEq, Repr

/-- The orientation/OCR stage decisions as a function of the detection
outcome. -/
def orientation_stage (detect_result : Option ℤ) : OrientationApplied :=
  let ori_deg := get_orientation detect_result
  ⟨360 - ori_deg, ori_deg / 90⟩

/-- C8. Orientation detection yields a rotation in {0, 90, 180, 270} degrees
(given the tesseract contract on successful detections), defaults to 0 when
detection fails, and the stage rotates the page image by `360 − d` degrees and
the OCR bitmap by `d / 90` quarter turns — exactly `d` degrees worth. -/
theorem orientation_stage_spec (detect_result : Option ℤ)
    (hcontract : ∀ d, detect_result = some d →
      d = 0 ∨ d = 90 ∨ d = 180 ∨ d = 270) :
    (get_orientation detect_result = 0 ∨ get_orientation detect_result = 90 ∨
      get_orientation detect_result = 180 ∨ get_orientation detect_result = 270) ∧
    (detect_result = none → get_orientation detect_result = 0) ∧
    (orientation_stage detect_result).image_rotation_degrees =
      360 - get_orientation detect_result ∧
    90 * (orientation_stage detect_result).pix_quarter_turns =
      get_orientation detect_result := by
  cases detect_result with
  | none => exact ⟨Or.inl rfl, fun _ => rfl, rfl, by decide⟩
  | some d =>
    have hd := hcontract d rfl
    refine ⟨by simpa [get_orientation] using hd, by simp, rfl, ?_⟩
    rcases hd with rfl | rfl | rfl | rfl <;> decide

/-- Witness for C8 at a successful 90-degree detection. -/
theorem orientation_stage_spec_witness :
    (get_orientation (some 90) = 0 ∨ get_orientation (some 90) = 90 ∨
      get_orientation (some 90) = 180 ∨ get_orientation (some 90) = 270) ∧
    ((some 90 : Option ℤ) = none → get_orientation (some 90) = 0) ∧
    (orientation_stage (some 90)).image_rotation_degrees =
      360 - get_orientation (some 90) ∧
    90 * (orientation_stage (some 90)).pix_quarter_turns =
      get_orientation (some 90) :=
  orientation_stage_spec (some 90) (fun d h => by
    cases h
    exact Or.inr (Or.inl rfl))

/-- C9. Every classification predicate (`is_white`, `is_bw`, `is_grayscale`)
operates on a disposable copy and leaves the page under test unchanged: the
page each returns is exactly the page it was given. -/
theorem classifiers_do_not_mutate {Img : Type} (ops : ImageOps Img) (image : Img) :
    (is_white ops image).2 = image ∧ (is_bw ops image).2 = image ∧
      (is_grayscale ops image).2 = image :=
  ⟨rfl, rfl, rfl⟩

/-! Claim C3: the shadow-trim retry loop, `get_trim_shadow_bounds`
(src/scan2pdf.cpp lines 305-351). -/

/-- A canvas geometry as formatted by `%wx%h%X%Y`: width, height and page
offsets. -/
structure Canvas where
  w : ℕ
  h : ℕ
  x : ℤ
  y : ℤ
deriving DecidableEq, Repr

/-- Pixel area of the canvas extent. -/
def Canvas.area (c : Canvas) : ℕ := c.w * c.h

/-- External kernels used by `get_trim_shadow_bounds`: `prep` is the pixel
pipeline of lines 309-317 (gamma 2.2, adaptive blur, negate, OTSU
auto-threshold, negate, trim artifacts), `trim` is `image.trim()`,
`crop_one_row` is `image.crop("+0-1")` followed by `repage`, and `canvas`
reads `%wx%h%X%Y`. -/
structure TrimOps (Img : Type) where
  prep : Img → Img
  trim : Img → Img
  crop_one_row : Img → Img
  canvas : Img → Canvas

/-- The bounded retry loop of lines 324-342, instrumented with the number of
trim passes performed: when a pass leaves the canvas unchanged the loop shaves
one row off the leading edge and retries, when it changes the canvas the loop
accepts the post-trim canvas and stops, and when the fuel (10 in the code) is
exhausted the `image_canvas` accumulator — still the pre-loop canvas — is
returned. -/
def trim_shadow_loop {Img : Type} (ops : TrimOps Img) :
    ℕ → Img → Canvas → Canvas × ℕ
  | 0, _, image_canvas => (image_canvas, 0)
  | fuel + 1, image, image_canvas =>
    let before_trim_image_canvas := ops.canvas image
    let trimmed := ops.trim image
    let after_trim_image_canvas := ops.canvas trimmed
    if before_trim_image_canvas = after_trim_image_canvas then
      let r := trim_shadow_loop ops fuel (ops.crop_one_row trimmed) image_canvas
      (r.1, r.2 + 1)
    else
      (after_trim_image_canvas, 1)

/-- `get_trim_shadow_bounds`, lines 305-351: run the retry loop for 10
attempts on the prepped silhouette, starting from its initial canvas. -/
def get_trim_shadow_bounds {Img : Type} (ops : TrimOps Img) (image : Img) : Canvas :=
  let prepped := ops.prep image
  (trim_shadow_loop ops 10 prepped (ops.canvas prepped)).1

/-- Number of trim passes the retry loop performs on a given input. -/
def trim_shadow_attempts {Img : Type} (ops : TrimOps Img) (image : Img) : ℕ :=
  let prepped := ops.prep image
  (trim_shadow_loop ops 10 prepped (ops.canvas prepped)).2

/-- The loop never makes more passes than it has fuel. -/
theorem trim_shadow_loop_le {Img : Type} (ops : TrimOps Img) (fuel : ℕ)
    (image : Img) (c : Canvas) :
    (trim_shadow_loop ops fuel image c).2 ≤ fuel := by
  induction fuel generalizing image with
  | zero => simp [trim_shadow_loop]
  | succ n ih =>
    unfold trim_shadow_loop
    dsimp only
    split
    · simpa using ih (ops.crop_one_row (ops.trim image))
    · simp

/-- When no trim pass can change the canvas, the loop returns its
accumulator. -/
theorem trim_shadow_loop_nochange {Img : Type} (ops : TrimOps Img)
    (hid : ∀ i, ops.canvas (ops.trim i) = ops.canvas i) (fuel : ℕ)
    (image : Img) (c : Canvas) :
    (trim_shadow_loop ops fuel image c).1 = c := by
  induction fuel generalizing image with
  | zero => rfl
  | succ n ih =>
    unfold trim_shadow_loop
    rw [if_pos (hid image).symm]
    exact ih (ops.crop_one_row (ops.trim image))

/-- Area bound for the loop: when trims and row shaves never grow the canvas,
the returned canvas is no larger than both the accumulator and the current
image canvas. -/
theorem trim_shadow_loop_area {Img : Type} (ops : TrimOps Img)
    (ht : ∀ i, (ops.canvas (ops.trim i)).area ≤ (ops.canvas i).area)
    (hc : ∀ i, (ops.canvas (ops.crop_one_row i)).area ≤ (ops.canvas i).area)
    (fuel : ℕ) (image : Img) (c : Canvas) (bound : ℕ) (hA : c.area ≤ bound)
    (hI : (ops.canvas image).area ≤ bound) :
    ((trim_shadow_loop ops fuel image c).1).area ≤ bound := by
  induction fuel generalizing image with
  | zero => simpa [trim_shadow_loop] using hA
  | succ n ih =>
    unfold trim_shadow_loop
    dsimp only
    split
    · exact ih (ops.crop_one_row (ops.trim image))
        (le_trans (hc (ops.trim image)) (le_trans (ht image) hI))
    · exact le_trans (ht image) hI

/-- C3. The shadow-trim retry loop performs at most 10 attempts; an unchanged
canvas shaves one row and retries, a changed canvas is accepted immediately
(one pass when the first trim already changes it); if no attempt changes the
canvas the initial canvas is returned, and under the external kernels'
no-growth contract the resulting crop is never larger than the untrimmed
page. -/
theorem shadow_trim_bounded {Img : Type} (ops : TrimOps Img) (image : Img)
    (ht : ∀ i, (ops.canvas (ops.trim i)).area ≤ (ops.canvas i).area)
    (hc : ∀ i, (ops.canvas (ops.crop_one_row i)).area ≤ (ops.canvas i).area)
    (hp : ops.canvas (ops.prep image) = ops.canvas image) :
    trim_shadow_attempts ops image ≤ 10 ∧
    ((∀ i, ops.canvas (ops.trim i) = ops.canvas i) →
      get_trim_shadow_bounds ops image = ops.canvas image) ∧
    (ops.canvas (ops.trim (ops.prep image)) ≠ ops.canvas (ops.prep image) →
      get_trim_shadow_bounds ops image = ops.canvas (ops.trim (ops.prep image)) ∧
        trim_shadow_attempts ops image = 1) ∧
    (get_trim_shadow_bounds ops image).area ≤ (ops.canvas image).area := by
  refine ⟨trim_shadow_loop_le ops 10 (ops.prep image) (ops.canvas (ops.prep image)),
    ?_, ?_, ?_⟩
  · intro hid
    rw [get_trim_shadow_bounds,
      trim_shadow_loop_nochange ops hid 10 (ops.prep image) (ops.canvas (ops.prep image)), hp]
  · intro hne
    have hstep : trim_shadow_loop ops 10 (ops.prep image) (ops.canvas (ops.prep image)) =
        (ops.canvas (ops.trim (ops.prep image)), 1) := by
      unfold trim_shadow_loop
      rw [if_neg (fun heq => hne heq.symm)]
    exact ⟨by rw [get_trim_shadow_bounds, hstep], by rw [trim_shadow_attempts, hstep]⟩
  · exact trim_shadow_loop_area ops ht hc 10 (ops.prep image)
      (ops.canvas (ops.prep image)) ((ops.canvas image).area) (le_of_eq (by rw [hp]))
      (le_of_eq (by rw [hp]))

/-- A concrete trim-kernel record on a unit image with a constant 5x5
canvas. -/
def opsU : TrimOps Unit where
  prep := id
  trim := id
  crop_one_row := id
  canvas := fun _ => ⟨5, 5, 0, 0⟩

/-- Witness for C3 at the concrete unit kernels. -/
theorem shadow_trim_bounded_witness :
    trim_shadow_attempts opsU () ≤ 10 ∧
    ((∀ i, opsU.canvas (opsU.trim i) = opsU.canvas i) →
      get_trim_shadow_bounds opsU () = opsU.canvas ()) ∧
    (opsU.canvas (opsU.trim (opsU.prep ())) ≠ opsU.canvas (opsU.prep ()) →
      get_trim_shadow_bounds opsU () = opsU.canvas (opsU.trim (opsU.prep ())) ∧
        trim_shadow_attempts opsU () = 1) ∧
    (get_trim_shadow_bounds opsU ()).area ≤ (opsU.canvas ()).area :=
  shadow_trim_bounded opsU () (fun _ => le_rfl) (fun _ => le_rfl) rfl

end Scan2pdf
